import Mathlib

/-!
Verification of `oscar_web_simple.py`, a NetCDF-to-GRIB2 web converter.

The Python source is shallowly embedded below.  Floating-point cell values
are modelled by `Oscar.V` (a rational number or NaN), which captures the only
float behaviour the program relies on: IEEE equality (NaN compares unequal to
everything) and `np.isnan`.  The eccodes library is external; a GRIB message
is modelled at the call boundary by the record `Oscar.Msg` of keys the program
sets, and the handle pool by `Oscar.EcState`.  Python exceptions are modelled
with `Except`.
-/

namespace Oscar

/-- A floating-point cell value: NaN or a numeric value (modelled as a rational). -/
inductive V where
  | nan : V
  | num : Rat → V
deriving DecidableEq, Repr

/-- IEEE `==` on cell values: NaN compares unequal to everything, including itself. -/
def feq : V → V → Bool
  | V.num a, V.num b => a == b
  | _, _ => false

/-- `np.isnan` on a cell value. -/
def isnan : V → Bool
  | V.nan => true
  | V.num _ => false

/-- Python `abs` on a rational. -/
def fabs (q : Rat) : Rat := if q < 0 then -q else q

/-- Failures surfaced by the conversion.  The Python code only ever raises an
`IndexError` (an out-of-bounds list/array access), modelled by `indexError`.
`emptyAxis` is the dedicated error class that the specification's taxonomy
names for axes shorter than 2 points; it is included so that statements about
that taxonomy can be expressed, and is never produced by the embedded code. -/
inductive ConvError where
  | indexError : ConvError
  | emptyAxis : ConvError
deriving DecidableEq, Repr

instance exceptDecEq {ε α : Type} [DecidableEq ε] [DecidableEq α] :
    DecidableEq (Except ε α) := fun x y =>
  match x, y with
  | Except.ok a, Except.ok b =>
    if h : a = b then isTrue (by rw [h])
    else isFalse fun hc => h (Except.ok.inj hc)
  | Except.error a, Except.error b =>
    if h : a = b then isTrue (by rw [h])
    else isFalse fun hc => h (Except.error.inj hc)
  | Except.ok _, Except.error _ => isFalse fun hc => Except.noConfusion hc
  | Except.error _, Except.ok _ => isFalse fun hc => Except.noConfusion hc

/-- Python `xs[i]` for a nonnegative index: IndexError when out of bounds. -/
def pyGet (xs : List α) (i : Nat) : Except ConvError α :=
  match xs.get? i with
  | some x => Except.ok x
  | none => Except.error ConvError.indexError

/-- Python `xs[-1]`: the last element, IndexError on an empty list. -/
def pyLast (xs : List α) : Except ConvError α :=
  match xs.getLast? with
  | some x => Except.ok x
  | none => Except.error ConvError.indexError

/-- The pool of live eccodes message handles: the next fresh id and the ids
currently allocated and not yet released. -/
structure EcState where
  next : Nat
  live : List Nat
deriving DecidableEq, Repr

/-- `eccodes.codes_grib_new_from_samples`: allocates a fresh handle. -/
def acquire (s : EcState) : Nat × EcState :=
  (s.next, ⟨s.next + 1, s.next :: s.live⟩)

/-- `eccodes.codes_release`: removes a handle from the live pool. -/
def release (g : Nat) (s : EcState) : EcState :=
  ⟨s.next, s.live.filter (fun x => x != g)⟩

/-- Number of decimal digits Python prints for `n` (at least one, for `0`). -/
def decLenAux (fuel : Nat) (n : Nat) : Nat :=
  match fuel with
  | 0 => 1
  | f + 1 => if n < 10 then 1 else decLenAux f (n / 10) + 1

/-- Decimal length of `n`. -/
def decLen (n : Nat) : Nat := decLenAux n n

/-- Width of the decimal text `f-string` formatting produces for `n` under a
zero-padded minimum width `w` (Python `{n:0wd}`). -/
def fmtWidth (w n : Nat) : Nat := max w (decLen n)

/-- Decimal concatenation: the number denoted by the decimal text of `a`
followed by the zero-padded (width `w`) decimal text of `b`. -/
def decCat (a w b : Nat) : Nat := a * 10 ^ fmtWidth w b + b

/-- `int(f'\x7byear:04d\x7d\x7bmonth:02d\x7d\x7bday:02d\x7d')` (line 144),
modelled as decimal concatenation: the leading zero-padding of the year does
not change the parsed value. -/
def dataDate (year month day : Nat) : Nat := decCat (decCat year 2 month) 2 day

/-- A GRIB2 message at the eccodes call boundary: the keys the program sets
(lines 136-158) together with the values handed to `codes_set_values`. -/
structure Msg where
  Ni : Nat
  Nj : Nat
  latFirst : Rat
  latLast : Rat
  lonFirst : Rat
  lonLast : Rat
  iInc : Rat
  jInc : Rat
  dataDate : Nat
  dataTime : Nat
  discipline : Nat
  parameterCategory : Nat
  parameterNumber : Nat
  typeOfLevel : String
  level : Nat
  bitmapPresent : Bool
  values : List V
deriving DecidableEq, Repr

/-- A 2D field, latitude-major after the transpose in `convert`. -/
abbrev Grid := List (List V)

/-- `not np.all(~np.isnan(data_flat))` (line 154): true when some cell of the
flattened field is NaN. -/
def anyMissing (data : Grid) : Bool := !(data.flatten.all fun v => !(isnan v))

/-- `np.where(np.isnan(x), 0, x)` on one cell. -/
def subst0 (v : V) : V := if isnan v then V.num 0 else v

/-- The values handed to `codes_set_values` (lines 153-158): when a bitmap is
being attached, NaN cells are replaced by 0; otherwise the flattened field is
passed unmodified. -/
def payload (data : Grid) : List V :=
  if anyMissing data then data.flatten.map subst0 else data.flatten

/-- The body of the `try` block of `_write_message` (lines 136-158): the
sequence of `codes_set` calls, with Python's index accesses on the axes in
source order.  Produces the message record, or the IndexError raised by the
first out-of-bounds access. -/
def buildMessage (data : Grid) (lats lons : List Rat) (year month day param : Nat) :
    Except ConvError Msg :=
  match pyGet lats 0 with
  | Except.error e => Except.error e
  | Except.ok la0 =>
  match pyLast lats with
  | Except.error e => Except.error e
  | Except.ok laN =>
  match pyGet lons 0 with
  | Except.error e => Except.error e
  | Except.ok lo0 =>
  match pyLast lons with
  | Except.error e => Except.error e
  | Except.ok loN =>
  match pyGet lons 1 with
  | Except.error e => Except.error e
  | Except.ok lo1 =>
  match pyGet lats 1 with
  | Except.error e => Except.error e
  | Except.ok la1 =>
    Except.ok
      { Ni := lons.length
        Nj := lats.length
        latFirst := la0
        latLast := laN
        lonFirst := lo0
        lonLast := loN
        iInc := fabs (lo1 - lo0)
        jInc := fabs (la1 - la0)
        dataDate := dataDate year month day
        dataTime := 0
        discipline := 10
        parameterCategory := 1
        parameterNumber := param
        typeOfLevel := "oceanSurface"
        level := 0
        bitmapPresent := anyMissing data
        values := payload data }

/-- `_write_message` (lines 131-161): acquires an eccodes handle, runs the
`try` body, and releases the handle in `finally` on both the success and the
failure path.  Returns the outcome together with the handle pool. -/
def writeMessage (st : EcState) (data : Grid) (lats lons : List Rat)
    (year month day param : Nat) : Except ConvError Msg × EcState :=
  let (gid, st1) := acquire st
  let r := buildMessage data lats lons year month day param
  (r, release gid st1)

/-- A calendar date.  The date extraction of `convert` (lines 117-124), which
parses either a `datetime` or an `np.datetime64` and discards time-of-day, is
abstracted: each entry of the dataset's time axis is its parsed date. -/
structure Date where
  year : Nat
  month : Nat
  day : Nat
deriving DecidableEq, Repr

/-- The fields of an opened NetCDF dataset that `convert` reads.  `u` and `v`
are stored with dimensions (time, lon, lat), as in the source (line 106). -/
structure DataSet where
  u : List Grid
  v : List Grid
  lats : List Rat
  lons : List Rat
  times : List Date
  fillAttr : Option Rat
deriving Repr

/-- `np.where(x == fill_value, np.nan, x)` on one cell (lines 114-115): NaN
never equals the sentinel, so NaN cells pass through unchanged. -/
def applyFillV (fv : Rat) (x : V) : V := if feq x (V.num fv) then V.nan else x

/-- Fill-value substitution over a whole field. -/
def applyFill (fv : Rat) (g : Grid) : Grid := g.map (List.map (applyFillV fv))

/-- `OSCARConverter.convert` (lines 102-129): reads the time-0 slices and
transposes them, substitutes the fill sentinel (default −999.0) with NaN,
then writes the u message (parameter 2) and the v message (parameter 3).
Returns the outcome, the content of the output file as a list of messages
(`none` when the file was never opened, i.e. reading failed), and the eccodes
handle pool. -/
def convertRun (st : EcState) (ds : DataSet) :
    Except ConvError Unit × Option (List Msg) × EcState :=
  match pyGet ds.u 0 with
  | Except.error e => (Except.error e, none, st)
  | Except.ok u0 =>
  match pyGet ds.v 0 with
  | Except.error e => (Except.error e, none, st)
  | Except.ok v0 =>
  match pyGet ds.times 0 with
  | Except.error e => (Except.error e, none, st)
  | Except.ok t =>
    let fv := ds.fillAttr.getD (-999 : Rat)
    let uD := applyFill fv u0.transpose
    let vD := applyFill fv v0.transpose
    let w1 := writeMessage st uD ds.lats ds.lons t.year t.month t.day 2
    match w1.1 with
    | Except.error e => (Except.error e, some [], w1.2)
    | Except.ok mu =>
      let w2 := writeMessage w1.2 vD ds.lats ds.lons t.year t.month t.day 3
      match w2.1 with
      | Except.error e => (Except.error e, some [mu], w2.2)
      | Except.ok mv => (Except.ok (), some [mu, mv], w2.2)

/-- One pass of Python `str.replace`: scans left to right, replacing each
(non-overlapping) occurrence of `pat`.  The fuel argument, instantiated with
the length of the scanned list, only serves structural termination; for a
nonempty pattern every step consumes at least one character, so the guard
branch is never reached. -/
def replaceFromAux (pat rep : List Char) : Nat → List Char → List Char
  | _, [] => []
  | 0, l => l
  | fuel + 1, c :: rest =>
    if pat.isPrefixOf (c :: rest) then
      rep ++ replaceFromAux pat rep fuel (rest.drop (pat.length - 1))
    else
      c :: replaceFromAux pat rep fuel rest

/-- Replace every occurrence of `pat` in `l` by `rep`, leftmost first. -/
def replaceFrom (pat rep l : List Char) : List Char := replaceFromAux pat rep l.length l

/-- Python `s.replace(pat, rep)` for a nonempty pattern: every occurrence
anywhere in the string is replaced, not only a suffix. -/
def pyReplace (s pat rep : String) : String := ⟨replaceFrom pat.data rep.data s.data⟩

/-- `file.filename.replace('.nc4', '.grb2').replace('.nc', '.grb2')`
(line 210): the download name sent with a successful response. -/
def outputName (s : String) : String :=
  pyReplace (pyReplace s ".nc4" ".grb2") ".nc" ".grb2"

/-- Modelled from the spec: a download name derived by replacing only the
final `.nc` or `.nc4` suffix of the input filename with `.grb2`, leaving the
rest of the name unchanged.  Stated for comparison with `outputName`. -/
def suffixOnlyName (s : String) : String :=
  if (".nc4".data).isSuffixOf s.data then
    ⟨(s.data.take (s.data.length - 4)) ++ ".grb2".data⟩
  else if (".nc".data).isSuffixOf s.data then
    ⟨(s.data.take (s.data.length - 3)) ++ ".grb2".data⟩
  else s

/-- The four magic bytes `b'GRIB'` checked on line 206. -/
def GRIBmagic : List Nat := [71, 82, 73, 66]

/-- The parts of an HTTP upload request the route inspects: whether the
multipart field "file" is present, and the uploaded filename. -/
structure Request where
  hasFile : Bool
  filename : String
deriving DecidableEq, Repr

/-- Outcome of one call to the `/convert` route: the HTTP status, the download
name sent on success, and whether each of the two per-request temporary files
(the saved input, the produced output) still exists after the handler — and
its `finally` block — have finished.  A file that was never created is
reported as not remaining. -/
structure RouteResult where
  status : Nat
  downloadName : Option String
  tempInputRemains : Bool
  tempOutputRemains : Bool
deriving DecidableEq, Repr

/-- The `/convert` route (lines 172-233).  The serialization of messages to
bytes is performed by eccodes and is external, so the route is parameterized
by it; `ds` is the dataset parsed from the uploaded bytes.  On the two 400
paths no temporary file has been created.  On every other path the `finally`
block unlinks the saved input; the produced output file is not unlinked
anywhere, so it remains whenever `convert` opened it. -/
def route (serialize : List Msg → List Nat) (st : EcState) (req : Request)
    (ds : DataSet) : RouteResult :=
  if !req.hasFile then ⟨400, none, false, false⟩
  else if req.filename = "" then ⟨400, none, false, false⟩
  else
    match convertRun st ds with
    | (r, outContent, _) =>
      match r with
      | Except.error _ => ⟨500, none, false, outContent.isSome⟩
      | Except.ok _ =>
        if (serialize (outContent.getD [])).take 4 ≠ GRIBmagic then
          ⟨500, none, false, true⟩
        else
          ⟨200, some (outputName req.filename), false, true⟩

/-! ### Basic facts about the embedded operations -/

theorem writeMessage_fst (st : EcState) (data : Grid) (lats lons : List Rat)
    (year month day param : Nat) :
    (writeMessage st data lats lons year month day param).1 =
      buildMessage data lats lons year month day param := rfl

theorem pyGet_error {xs : List α} {i : Nat} {e : ConvError}
    (h : pyGet xs i = Except.error e) : e = ConvError.indexError := by
  unfold pyGet at h
  split at h <;> simp_all

theorem pyGet_ok {xs : List α} {i : Nat} {x : α}
    (h : pyGet xs i = Except.ok x) : xs.get? i = some x := by
  unfold pyGet at h
  split at h <;> simp_all

theorem pyLast_error {xs : List α} {e : ConvError}
    (h : pyLast xs = Except.error e) : e = ConvError.indexError := by
  unfold pyLast at h
  split at h <;> simp_all

theorem anyMissing_true_iff (data : Grid) :
    anyMissing data = true ↔ ∃ c ∈ data.flatten, isnan c = true := by
  simp only [anyMissing, Bool.not_eq_true', List.all_eq_false, Bool.not_eq_false',
    Bool.not_eq_false]

theorem anyMissing_false_iff (data : Grid) :
    anyMissing data = false ↔ ∀ c ∈ data.flatten, isnan c = false := by
  simp only [anyMissing, Bool.not_eq_false', List.all_eq_true, Bool.not_eq_true']

theorem buildMessage_eq_ok {lats lons : List Rat} {la0 la1 laN lo0 lo1 loN : Rat}
    (data : Grid) (year month day param : Nat)
    (h0 : lats.get? 0 = some la0) (h1 : lats.get? 1 = some la1)
    (hN : lats.getLast? = some laN) (g0 : lons.get? 0 = some lo0)
    (g1 : lons.get? 1 = some lo1) (gN : lons.getLast? = some loN) :
    buildMessage data lats lons year month day param = Except.ok
      { Ni := lons.length, Nj := lats.length, latFirst := la0, latLast := laN
        lonFirst := lo0, lonLast := loN, iInc := fabs (lo1 - lo0)
        jInc := fabs (la1 - la0), dataDate := dataDate year month day
        dataTime := 0, discipline := 10, parameterCategory := 1
        parameterNumber := param, typeOfLevel := "oceanSurface", level := 0
        bitmapPresent := anyMissing data, values := payload data } := by
  unfold buildMessage pyGet pyLast
  rw [h0, h1, hN, g0, g1, gN]

theorem buildMessage_ok_fixed {data : Grid} {lats lons : List Rat}
    {year month day param : Nat} {msg : Msg}
    (h : buildMessage data lats lons year month day param = Except.ok msg) :
    msg.parameterNumber = param ∧ msg.bitmapPresent = anyMissing data ∧
      msg.values = payload data ∧ msg.dataDate = dataDate year month day ∧
      msg.dataTime = 0 ∧ msg.discipline = 10 ∧ msg.parameterCategory = 1 ∧
      msg.typeOfLevel = "oceanSurface" ∧ msg.level = 0 ∧
      msg.Ni = lons.length ∧ msg.Nj = lats.length := by
  unfold buildMessage at h
  repeat' split at h
  all_goals cases h
  exact ⟨rfl, rfl, rfl, rfl, rfl, rfl, rfl, rfl, rfl, rfl, rfl⟩

theorem buildMessage_short {lats lons : List Rat} (data : Grid)
    (year month day param : Nat) (h : lats.length < 2 ∨ lons.length < 2) :
    buildMessage data lats lons year month day param =
      Except.error ConvError.indexError := by
  have hnone : lats.get? 1 = none ∨ lons.get? 1 = none := by
    rcases h with h | h
    · exact Or.inl (List.get?_eq_none.mpr (by omega))
    · exact Or.inr (List.get?_eq_none.mpr (by omega))
  unfold buildMessage
  cases h0 : pyGet lats 0 with
  | error e => rw [pyGet_error h0]
  | ok la0 =>
  cases hN : pyLast lats with
  | error e => rw [pyLast_error hN]
  | ok laN =>
  cases g0 : pyGet lons 0 with
  | error e => rw [pyGet_error g0]
  | ok lo0 =>
  cases gN : pyLast lons with
  | error e => rw [pyLast_error gN]
  | ok loN =>
  cases g1 : pyGet lons 1 with
  | error e => rw [pyGet_error g1]
  | ok lo1 =>
  cases h1 : pyGet lats 1 with
  | error e => rw [pyGet_error h1]
  | ok la1 =>
    exfalso
    rcases hnone with hn | hn
    · rw [pyGet_ok h1] at hn; cases hn
    · rw [pyGet_ok g1] at hn; cases hn

theorem convertRun_ok_shape {st : EcState} {ds : DataSet}
    {r : Except ConvError Unit} {content : Option (List Msg)} {st2 : EcState}
    (h : convertRun st ds = (r, content, st2)) (hr : r = Except.ok ()) :
    ∃ mu mv, content = some [mu, mv] ∧ mu.parameterNumber = 2 ∧
      mv.parameterNumber = 3 := by
  subst hr
  simp only [convertRun] at h
  repeat' split at h
  all_goals injection h with h1 h23
  all_goals cases h1
  injection h23 with h2 h3
  rename_i x1 mu huw x2 mv hvw
  refine ⟨mu, mv, h2.symm, ?_, ?_⟩
  · exact (buildMessage_ok_fixed ((writeMessage_fst _ _ _ _ _ _ _ _) ▸ huw)).1
  · exact (buildMessage_ok_fixed ((writeMessage_fst _ _ _ _ _ _ _ _) ▸ hvw)).1

theorem replaceFromAux_append (pat' rep : List Char) (l t : List Char) :
    ∀ fuel : Nat, '.' ∉ l → (l ++ t).length ≤ fuel →
      replaceFromAux ('.' :: pat') rep fuel (l ++ t) =
        l ++ replaceFromAux ('.' :: pat') rep (fuel - l.length) t := by
  induction l with
  | nil => intro fuel _ _; simp
  | cons c l' ih =>
    intro fuel hnin hlen
    obtain ⟨hc, hnin'⟩ : '.' ≠ c ∧ '.' ∉ l' := by
      simpa [List.mem_cons, not_or] using hnin
    cases fuel with
    | zero => simp at hlen
    | succ f =>
      have hlen' : (l' ++ t).length ≤ f := by
        simp only [List.cons_append, List.length_cons] at hlen
        omega
      have hbeq : ('.' == c) = false := beq_eq_false_iff_ne.mpr hc
      simp only [List.cons_append, replaceFromAux, List.isPrefixOf, hbeq,
        Bool.false_and, Bool.false_eq_true, if_false, List.length_cons,
        Nat.succ_sub_succ, List.append_eq]
      rw [ih f hnin' hlen']

theorem replaceFrom_append (pat' rep l t : List Char) (h : '.' ∉ l) :
    replaceFrom ('.' :: pat') rep (l ++ t) =
      l ++ replaceFrom ('.' :: pat') rep t := by
  unfold replaceFrom
  rw [replaceFromAux_append pat' rep l t (l ++ t).length h (le_refl _)]
  simp [List.length_append]

theorem decLen_le_two : ∀ n < 100, decLen n ≤ 2 := by decide

theorem dataDate_eq {month day : Nat} (year : Nat) (hm : month < 100)
    (hd : day < 100) :
    dataDate year month day = year * 10000 + month * 100 + day := by
  have h1 : fmtWidth 2 month = 2 := Nat.max_eq_left (decLen_le_two month hm)
  have h2 : fmtWidth 2 day = 2 := Nat.max_eq_left (decLen_le_two day hd)
  unfold dataDate decCat
  rw [h1, h2]
  ring

/-- The end-to-end example dataset of the specification (§8): `u` carries one
sentinel cell, `v` carries none, axes are 2×2, date 2024-03-07. -/
def dsGood : DataSet :=
  { u := [[[V.num 1, V.num 3], [V.num 2, V.num (-999)]]]
    v := [[[V.num (1/10), V.num (3/10)], [V.num (2/10), V.num (4/10)]]]
    lats := [10, 20]
    lons := [100, 110]
    times := [⟨2024, 3, 7⟩]
    fillAttr := none }

/-- A dataset whose latitude axis has a single point. -/
def dsShort : DataSet :=
  { u := [[[V.num 1], [V.num 2]]]
    v := [[[V.num 1], [V.num 2]]]
    lats := [10]
    lons := [100, 110]
    times := [⟨2024, 3, 7⟩]
    fillAttr := none }

/-! ### Claims -/

/-- C1: for every valid input dataset (one on which the conversion succeeds),
the conversion produces an output stream of exactly two encoded grid
messages, the zonal (u) message first with parameter code 2 and the
meridional (v) message second with parameter code 3. -/
theorem C1_two_messages (st : EcState) (ds : DataSet)
    (h : (convertRun st ds).1 = Except.ok ()) :
    ∃ mu mv, (convertRun st ds).2.1 = some [mu, mv] ∧
      mu.parameterNumber = 2 ∧ mv.parameterNumber = 3 :=
  convertRun_ok_shape rfl h

/-- C1 witness: the specification's example dataset converts successfully into
the two-message stream. -/
theorem C1_two_messages_witness :
    ∃ mu mv, (convertRun ⟨0, []⟩ dsGood).2.1 = some [mu, mv] ∧
      mu.parameterNumber = 2 ∧ mv.parameterNumber = 3 :=
  C1_two_messages ⟨0, []⟩ dsGood (by decide)

/-- C2: for every encoded field, if at least one cell is flagged missing
(NaN), the message carries the missing-value bitmap flag and every missing
cell's payload value is replaced by 0 (in grid order, other cells unmodified)
before encoding; if no cell is missing, no bitmap is attached and the payload
is written unmodified. -/
theorem C2_missing_value_policy (st : EcState) (data : Grid)
    (lats lons : List Rat) (year month day param : Nat) (msg : Msg)
    (h : (writeMessage st data lats lons year month day param).1 =
      Except.ok msg) :
    ((∃ c ∈ data.flatten, isnan c = true) →
        msg.bitmapPresent = true ∧ msg.values = data.flatten.map subst0) ∧
    ((∀ c ∈ data.flatten, isnan c = false) →
        msg.bitmapPresent = false ∧ msg.values = data.flatten) := by
  rw [writeMessage_fst] at h
  obtain ⟨-, hb, hv, -⟩ := buildMessage_ok_fixed h
  constructor
  · intro hex
    have ha : anyMissing data = true := (anyMissing_true_iff data).mpr hex
    refine ⟨by rw [hb, ha], ?_⟩
    rw [hv]
    unfold payload
    rw [ha]
    simp
  · intro hall
    have ha : anyMissing data = false := (anyMissing_false_iff data).mpr hall
    refine ⟨by rw [hb, ha], ?_⟩
    rw [hv]
    unfold payload
    rw [ha]
    simp

/-- C2 witness: a 1×2 field with one NaN cell gets the bitmap flag and a
zero-substituted payload. -/
theorem C2_missing_value_policy_witness :
    ∃ msg, (writeMessage ⟨0, []⟩ [[V.nan, V.num 1]] [10, 20] [100, 110]
        2024 3 7 2).1 = Except.ok msg ∧
      msg.bitmapPresent = true ∧ msg.values = [V.num 0, V.num 1] := by
  have h := (writeMessage_fst ⟨0, []⟩ [[V.nan, V.num 1]] [10, 20] [100, 110]
      2024 3 7 2).trans
    (buildMessage_eq_ok [[V.nan, V.num 1]] 2024 3 7 2
      (show ([10, 20] : List Rat).get? 0 = some 10 by decide)
      (show ([10, 20] : List Rat).get? 1 = some 20 by decide)
      (show ([10, 20] : List Rat).getLast? = some 20 by decide)
      (show ([100, 110] : List Rat).get? 0 = some 100 by decide)
      (show ([100, 110] : List Rat).get? 1 = some 110 by decide)
      (show ([100, 110] : List Rat).getLast? = some 110 by decide))
  have hc := C2_missing_value_policy ⟨0, []⟩ [[V.nan, V.num 1]] [10, 20]
    [100, 110] 2024 3 7 2 _ h
  refine ⟨_, h, (hc.1 ⟨V.nan, by decide, rfl⟩).1, ?_⟩
  rw [(hc.1 ⟨V.nan, by decide, rfl⟩).2]
  decide

/-- C3: for every pair of coordinate axes of length at least 2 (expressed by
the six index accesses the encoder performs succeeding), the encoder sets
point-count-x to the number of longitudes, point-count-y to the number of
latitudes, the corner coordinates to the first/last axis entries exactly as
given, and the spacings to the absolute first interval of each axis, with no
uniformity validation (success does not depend on the remaining entries). -/
theorem C3_grid_descriptor (st : EcState) (data : Grid) {lats lons : List Rat}
    {la0 la1 laN lo0 lo1 loN : Rat} (year month day param : Nat)
    (h0 : lats.get? 0 = some la0) (h1 : lats.get? 1 = some la1)
    (hN : lats.getLast? = some laN) (g0 : lons.get? 0 = some lo0)
    (g1 : lons.get? 1 = some lo1) (gN : lons.getLast? = some loN) :
    ∃ msg, (writeMessage st data lats lons year month day param).1 =
        Except.ok msg ∧
      msg.Ni = lons.length ∧ msg.Nj = lats.length ∧
      msg.latFirst = la0 ∧ msg.latLast = laN ∧
      msg.lonFirst = lo0 ∧ msg.lonLast = loN ∧
      msg.iInc = fabs (lo1 - lo0) ∧ msg.jInc = fabs (la1 - la0) := by
  have h' := (writeMessage_fst st data lats lons year month day param).trans
    (buildMessage_eq_ok data year month day param h0 h1 hN g0 g1 gN)
  exact ⟨_, h', rfl, rfl, rfl, rfl, rfl, rfl, rfl, rfl⟩

/-- C3 witness at the axes lats = [10, 20], lons = [100, 110]. -/
theorem C3_grid_descriptor_witness :
    ∃ msg, (writeMessage ⟨0, []⟩ [] [10, 20] [100, 110] 2024 3 7 2).1 =
        Except.ok msg ∧
      msg.Ni = ([100, 110] : List Rat).length ∧
      msg.Nj = ([10, 20] : List Rat).length ∧
      msg.latFirst = 10 ∧ msg.latLast = 20 ∧
      msg.lonFirst = 100 ∧ msg.lonLast = 110 ∧
      msg.iInc = fabs (110 - 100) ∧ msg.jInc = fabs (20 - 10) :=
  C3_grid_descriptor ⟨0, []⟩ [] 2024 3 7 2 (by decide) (by decide) (by decide)
    (by decide) (by decide) (by decide)

/-- C7: for every encoded message, the date stamp equals
year×10000 + month×100 + day, the time-of-day is fixed at 0, the discipline
is the oceanographic identifier (10), the parameter category the currents
identifier (1), and the vertical level is fixed at the ocean surface with
level value 0. -/
theorem C7_fixed_identity (st : EcState) (data : Grid) (lats lons : List Rat)
    {year month day param : Nat} {msg : Msg}
    (h : (writeMessage st data lats lons year month day param).1 =
      Except.ok msg)
    (hm : month < 100) (hd : day < 100) :
    msg.dataDate = year * 10000 + month * 100 + day ∧ msg.dataTime = 0 ∧
      msg.discipline = 10 ∧ msg.parameterCategory = 1 ∧
      msg.typeOfLevel = "oceanSurface" ∧ msg.level = 0 := by
  rw [writeMessage_fst] at h
  obtain ⟨-, -, -, hdd, ht, hdis, hcat, htl, hl, -, -⟩ := buildMessage_ok_fixed h
  exact ⟨hdd.trans (dataDate_eq year hm hd), ht, hdis, hcat, htl, hl⟩

/-- C7 witness: the date 2024-03-07 stamps as 2024×10000 + 3×100 + 7. -/
theorem C7_fixed_identity_witness :
    (3 < 100 ∧ 7 < 100) ∧
    ∃ msg, (writeMessage ⟨0, []⟩ [] [10, 20] [100, 110] 2024 3 7 2).1 =
        Except.ok msg ∧ msg.dataDate = 2024 * 10000 + 3 * 100 + 7 := by
  have h := (writeMessage_fst ⟨0, []⟩ [] [10, 20] [100, 110] 2024 3 7 2).trans
    (buildMessage_eq_ok [] 2024 3 7 2
      (show ([10, 20] : List Rat).get? 0 = some 10 by decide)
      (show ([10, 20] : List Rat).get? 1 = some 20 by decide)
      (show ([10, 20] : List Rat).getLast? = some 20 by decide)
      (show ([100, 110] : List Rat).get? 0 = some 100 by decide)
      (show ([100, 110] : List Rat).get? 1 = some 110 by decide)
      (show ([100, 110] : List Rat).getLast? = some 110 by decide))
  exact ⟨⟨by decide, by decide⟩, _, h,
    (C7_fixed_identity ⟨0, []⟩ [] [10, 20] [100, 110] h (by decide)
      (by decide)).1⟩

/-- C9: every call to the message encoder releases the eccodes handle it
acquired, on the success path and on every failure path alike: under the
freshness invariant (the next handle id is not yet live), the pool of live
handles after `_write_message` equals the pool before it, whatever the
outcome. -/
theorem C9_handle_released (st : EcState) (data : Grid) (lats lons : List Rat)
    (year month day param : Nat) (h : st.next ∉ st.live) :
    ((writeMessage st data lats lons year month day param).2).live =
      st.live := by
  simp only [writeMessage, acquire, release, List.filter_cons,
    bne_self_eq_false, Bool.false_eq_true, if_false]
  exact List.filter_eq_self.mpr fun a ha => bne_iff_ne.mpr fun hc => h (hc ▸ ha)

/-- C9 witness at the empty pool. -/
theorem C9_handle_released_witness :
    ((0 : Nat) ∉ ([] : List Nat)) ∧
      ((writeMessage ⟨0, []⟩ [] [] [] 0 0 0 2).2).live = [] :=
  ⟨by decide, C9_handle_released ⟨0, []⟩ [] [] [] 0 0 0 2 (by decide)⟩

/-- C10: a cell that is NaN in the raw field is unchanged by fill-sentinel
substitution, so the encoded message carries the bitmap flag and a 0 payload
at that cell's flat grid position even though the cell never equalled the
sentinel; moreover a raw NaN cell and a raw sentinel cell are mapped to the
same internal value, so they are indistinguishable to the encoder. -/
theorem C10_raw_nan_flagged (fv : Rat) (g : Grid) (st : EcState)
    (lats lons : List Rat) (year month day param : Nat) {msg : Msg} {k : Nat}
    (h : (writeMessage st (applyFill fv g) lats lons year month day param).1 =
      Except.ok msg)
    (hk : g.flatten.get? k = some V.nan) :
    msg.bitmapPresent = true ∧ msg.values.get? k = some (V.num 0) ∧
      applyFillV fv V.nan = applyFillV fv (V.num fv) := by
  have hnan : applyFillV fv V.nan = V.nan := by simp [applyFillV, feq]
  have hflat : (applyFill fv g).flatten = g.flatten.map (applyFillV fv) := by
    unfold applyFill
    exact (List.map_flatten _ _).symm
  have hget : (applyFill fv g).flatten.get? k = some V.nan := by
    rw [hflat, List.get?_map, hk]
    simp [hnan]
  have hAM : anyMissing (applyFill fv g) = true :=
    (anyMissing_true_iff _).mpr ⟨V.nan, List.get?_mem hget, rfl⟩
  rw [writeMessage_fst] at h
  obtain ⟨-, hb, hv, -⟩ := buildMessage_ok_fixed h
  refine ⟨by rw [hb, hAM], ?_, by simp [applyFillV, feq]⟩
  rw [hv]
  unfold payload
  rw [hAM]
  simp only [if_true]
  rw [List.get?_map, hget]
  simp [subst0, isnan]

/-- C10 witness: a raw NaN cell (no sentinel involved) is flagged and zeroed. -/
theorem C10_raw_nan_flagged_witness :
    ∃ msg, (writeMessage ⟨0, []⟩ (applyFill (-999) [[V.nan]]) [10, 20]
        [100, 110] 2024 3 7 2).1 = Except.ok msg ∧
      msg.bitmapPresent = true ∧ msg.values.get? 0 = some (V.num 0) := by
  have h := (writeMessage_fst ⟨0, []⟩ (applyFill (-999) [[V.nan]]) [10, 20]
      [100, 110] 2024 3 7 2).trans
    (buildMessage_eq_ok (applyFill (-999) [[V.nan]]) 2024 3 7 2
      (show ([10, 20] : List Rat).get? 0 = some 10 by decide)
      (show ([10, 20] : List Rat).get? 1 = some 20 by decide)
      (show ([10, 20] : List Rat).getLast? = some 20 by decide)
      (show ([100, 110] : List Rat).get? 0 = some 100 by decide)
      (show ([100, 110] : List Rat).get? 1 = some 110 by decide)
      (show ([100, 110] : List Rat).getLast? = some 110 by decide))
  have hc := C10_raw_nan_flagged (-999) [[V.nan]] ⟨0, []⟩ [10, 20] [100, 110]
    2024 3 7 2 h (show ([[V.nan]] : Grid).flatten.get? 0 = some V.nan by decide)
  exact ⟨_, h, hc.1, hc.2.1⟩

/-- C4 counterexample: on a dataset whose latitude axis has a single point the
conversion does fail, but with the generic index-out-of-bounds error raised by
the axis access `lats[1]`; it is not the specification's dedicated `EmptyAxis`
error, which no code path produces. -/
theorem C4_counterexample :
    (convertRun ⟨0, []⟩ dsShort).1 = Except.error ConvError.indexError ∧
      (convertRun ⟨0, []⟩ dsShort).1 ≠ Except.error ConvError.emptyAxis :=
  ⟨by decide, by decide⟩

/-- C4 amended: for every input in which a coordinate axis has fewer than 2
points, the conversion fails — with the index-out-of-bounds error of an axis
access, there being no dedicated `EmptyAxis` check — and a 2×2 grid (nonempty
time-sliced fields, both axes of length 2) encodes without error. -/
theorem C4_short_axis_fails :
    (∀ (st : EcState) (ds : DataSet),
        ds.lats.length < 2 ∨ ds.lons.length < 2 →
        (convertRun st ds).1 = Except.error ConvError.indexError) ∧
    (∀ (st : EcState) (ds : DataSet),
        ds.u ≠ [] → ds.v ≠ [] → ds.times ≠ [] →
        ds.lats.length = 2 → ds.lons.length = 2 →
        (convertRun st ds).1 = Except.ok ()) := by
  constructor
  · intro st ds hshort
    simp only [convertRun]
    cases h1 : pyGet ds.u 0 with
    | error e => simp [pyGet_error h1]
    | ok u0 =>
    cases h2 : pyGet ds.v 0 with
    | error e => simp [pyGet_error h2]
    | ok v0 =>
    cases h3 : pyGet ds.times 0 with
    | error e => simp [pyGet_error h3]
    | ok t =>
      dsimp only
      rw [writeMessage_fst, buildMessage_short _ _ _ _ _ hshort]
  · intro st ds hu hv ht hla hlo
    obtain ⟨u0, us, hu0⟩ := List.exists_cons_of_ne_nil hu
    obtain ⟨v0, vs, hv0⟩ := List.exists_cons_of_ne_nil hv
    obtain ⟨t0, ts, ht0⟩ := List.exists_cons_of_ne_nil ht
    obtain ⟨a, b, hab⟩ := List.length_eq_two.mp hla
    obtain ⟨c, d, hcd⟩ := List.length_eq_two.mp hlo
    simp only [convertRun, hu0, hv0, ht0, hab, hcd]
    dsimp only [pyGet, List.get?]
    rw [writeMessage_fst, buildMessage_eq_ok _ _ _ _ _
      (show ([a, b] : List Rat).get? 0 = some a from rfl)
      (show ([a, b] : List Rat).get? 1 = some b from rfl)
      (show ([a, b] : List Rat).getLast? = some b from rfl)
      (show ([c, d] : List Rat).get? 0 = some c from rfl)
      (show ([c, d] : List Rat).get? 1 = some d from rfl)
      (show ([c, d] : List Rat).getLast? = some d from rfl)]
    dsimp only
    rw [writeMessage_fst, buildMessage_eq_ok _ _ _ _ _
      (show ([a, b] : List Rat).get? 0 = some a from rfl)
      (show ([a, b] : List Rat).get? 1 = some b from rfl)
      (show ([a, b] : List Rat).getLast? = some b from rfl)
      (show ([c, d] : List Rat).get? 0 = some c from rfl)
      (show ([c, d] : List Rat).get? 1 = some d from rfl)
      (show ([c, d] : List Rat).getLast? = some d from rfl)]

/-- C4 witness: the single-point-latitude dataset fails with the index error,
and the specification's 2×2 example dataset converts without error. -/
theorem C4_short_axis_fails_witness :
    (dsShort.lats.length < 2 ∨ dsShort.lons.length < 2) ∧
      (convertRun ⟨0, []⟩ dsShort).1 = Except.error ConvError.indexError ∧
      (dsGood.u ≠ [] ∧ dsGood.v ≠ [] ∧ dsGood.times ≠ [] ∧
        dsGood.lats.length = 2 ∧ dsGood.lons.length = 2) ∧
      (convertRun ⟨0, []⟩ dsGood).1 = Except.ok () :=
  ⟨Or.inl (by decide),
    C4_short_axis_fails.1 ⟨0, []⟩ dsShort (Or.inl (by decide)),
    ⟨by decide, by decide, by decide, by decide, by decide⟩,
    C4_short_axis_fails.2 ⟨0, []⟩ dsGood (by decide) (by decide) (by decide)
      (by decide) (by decide)⟩

/-- C5 counterexample: a fully successful conversion request after which the
produced output temporary file still exists — the handler's cleanup removes
only the saved input file, so not every temporary file is removed. -/
theorem C5_counterexample :
    (route (fun _ => GRIBmagic) ⟨0, []⟩ ⟨true, "oscar.nc"⟩ dsGood).status =
        200 ∧
      (route (fun _ => GRIBmagic) ⟨0, []⟩ ⟨true, "oscar.nc"⟩
          dsGood).tempOutputRemains = true :=
  ⟨by decide, by decide⟩

/-- C5 amended: on every path the saved input temporary file is removed (the
`finally` block unlinks it), but the produced output temporary file is never
removed by the handler — it remains after the response exactly when the
conversion attempt created it (the request was accepted and the output file
was opened). -/
theorem C5_temp_cleanup (serialize : List Msg → List Nat) (st : EcState)
    (req : Request) (ds : DataSet) :
    (route serialize st req ds).tempInputRemains = false ∧
      ((route serialize st req ds).tempOutputRemains = true ↔
        (req.hasFile = true ∧ req.filename ≠ "" ∧
          ((convertRun st ds).2.1).isSome = true)) := by
  cases hf : req.hasFile with
  | false => simp [route, hf]
  | true =>
    by_cases hn : req.filename = ""
    · simp [route, hf, hn]
    · rcases hcr : convertRun st ds with ⟨r, c, s2⟩
      cases r with
      | error e => simp [route, hf, hn, hcr]
      | ok u =>
        cases u
        obtain ⟨mu, mv, hc2, -, -⟩ := convertRun_ok_shape hcr rfl
        subst hc2
        by_cases hm : (serialize [mu, mv]).take 4 = GRIBmagic
        · simp [route, hf, hn, hcr, hm]
        · simp [route, hf, hn, hcr, hm]

/-- C6: a success (200) response is returned only when the produced output
stream begins with the four ASCII bytes `GRIB`; and after an encoding that
raised no error, the request still reports failure (500) whenever the output
does not begin with that marker. -/
theorem C6_magic_check :
    (∀ (serialize : List Msg → List Nat) (st : EcState) (req : Request)
        (ds : DataSet),
        (route serialize st req ds).status = 200 →
        (serialize (((convertRun st ds).2.1).getD [])).take 4 = GRIBmagic) ∧
    (∀ (serialize : List Msg → List Nat) (st : EcState) (req : Request)
        (ds : DataSet),
        req.hasFile = true → req.filename ≠ "" →
        (convertRun st ds).1 = Except.ok () →
        (serialize (((convertRun st ds).2.1).getD [])).take 4 ≠ GRIBmagic →
        (route serialize st req ds).status = 500) := by
  constructor
  · intro serialize st req ds h
    cases hf : req.hasFile with
    | false => simp [route, hf] at h
    | true =>
      by_cases hn : req.filename = ""
      · simp [route, hf, hn] at h
      · rcases hcr : convertRun st ds with ⟨r, c, s2⟩
        cases r with
        | error e => simp [route, hf, hn, hcr] at h
        | ok u =>
          cases u
          by_cases hm : (serialize (c.getD [])).take 4 = GRIBmagic
          · exact hm
          · simp [route, hf, hn, hcr, hm] at h
  · intro serialize st req ds hf hn hok hm
    rcases hcr : convertRun st ds with ⟨r, c, s2⟩
    rw [hcr] at hok hm
    dsimp only at hok hm
    subst hok
    simp [route, hf, hn, hcr, hm]

/-- C6 witness: with a serializer producing the `GRIB` marker the route
answers 200 and the theorem yields the marker equation; with a serializer
producing an empty stream the route answers 500. -/
theorem C6_magic_check_witness :
    ((fun _ => GRIBmagic : List Msg → List Nat)
        (((convertRun ⟨0, []⟩ dsGood).2.1).getD [])).take 4 = GRIBmagic ∧
      (route (fun _ => []) ⟨0, []⟩ ⟨true, "oscar.nc"⟩ dsGood).status = 500 :=
  ⟨C6_magic_check.1 (fun _ => GRIBmagic) ⟨0, []⟩ ⟨true, "oscar.nc"⟩ dsGood
      (by decide),
    C6_magic_check.2 (fun _ => []) ⟨0, []⟩ ⟨true, "oscar.nc"⟩ dsGood rfl
      (by decide) (by decide) (by decide)⟩

/-- C8 counterexample: for the filename `a.nc.nc` the code's replacement
mangles the interior occurrence too (`a.grb2.grb2`), whereas replacing only
the suffix would give `a.nc.grb2`. -/
theorem C8_counterexample :
    outputName "a.nc.nc" = "a.grb2.grb2" ∧
      suffixOnlyName "a.nc.nc" = "a.nc.grb2" ∧
      outputName "a.nc.nc" ≠ suffixOnlyName "a.nc.nc" :=
  ⟨by decide, by decide, by decide⟩

/-- C8 amended: the download name is obtained by replacing every occurrence
of `.nc4`, then every occurrence of `.nc`, anywhere in the filename, with
`.grb2` — not only the suffix.  In particular, when `.nc`/`.nc4` occurs only
as the final suffix (e.g. the rest of the name contains no dot), this
coincides with replacing the suffix and leaving the rest unchanged. -/
theorem C8_name_replacement (stem : List Char) (hs : '.' ∉ stem) :
    outputName ⟨stem ++ ".nc".data⟩ = ⟨stem ++ ".grb2".data⟩ ∧
      outputName ⟨stem ++ ".nc4".data⟩ = ⟨stem ++ ".grb2".data⟩ := by
  constructor
  · have e1 : replaceFrom (".nc4".data) (".grb2".data) (stem ++ ".nc".data) =
        stem ++ ".nc".data :=
      (replaceFrom_append "nc4".data ".grb2".data stem ".nc".data hs).trans
        (congrArg (stem ++ ·) (by decide))
    have e2 : replaceFrom (".nc".data) (".grb2".data) (stem ++ ".nc".data) =
        stem ++ ".grb2".data :=
      (replaceFrom_append "nc".data ".grb2".data stem ".nc".data hs).trans
        (congrArg (stem ++ ·) (by decide))
    calc outputName ⟨stem ++ ".nc".data⟩
        = ⟨replaceFrom (".nc".data) (".grb2".data)
            (replaceFrom (".nc4".data) (".grb2".data) (stem ++ ".nc".data))⟩ :=
          rfl
      _ = ⟨stem ++ ".grb2".data⟩ := by rw [e1, e2]
  · have e3 : replaceFrom (".nc4".data) (".grb2".data) (stem ++ ".nc4".data) =
        stem ++ ".grb2".data :=
      (replaceFrom_append "nc4".data ".grb2".data stem ".nc4".data hs).trans
        (congrArg (stem ++ ·) (by decide))
    have e4 : replaceFrom (".nc".data) (".grb2".data) (stem ++ ".grb2".data) =
        stem ++ ".grb2".data :=
      (replaceFrom_append "nc".data ".grb2".data stem ".grb2".data hs).trans
        (congrArg (stem ++ ·) (by decide))
    calc outputName ⟨stem ++ ".nc4".data⟩
        = ⟨replaceFrom (".nc".data) (".grb2".data)
            (replaceFrom (".nc4".data) (".grb2".data) (stem ++ ".nc4".data))⟩ :=
          rfl
      _ = ⟨stem ++ ".grb2".data⟩ := by rw [e3, e4]

/-- C8 witness: for the dot-free stem `oscar` both suffixes map to
`oscar.grb2`. -/
theorem C8_name_replacement_witness :
    ('.' ∉ "oscar".data) ∧
      outputName ⟨"oscar".data ++ ".nc".data⟩ =
        ⟨"oscar".data ++ ".grb2".data⟩ ∧
      outputName ⟨"oscar".data ++ ".nc4".data⟩ =
        ⟨"oscar".data ++ ".grb2".data⟩ :=
  ⟨by decide, (C8_name_replacement "oscar".data (by decide)).1,
    (C8_name_replacement "oscar".data (by decide)).2⟩

end Oscar
